import Mathlib

set_option maxHeartbeats 1000000

/-!
Shallow embedding of `revit-mcp-python/tools`: the response normalizer
`format_response` (tools/utils.py) together with the payload construction and
error-handling structure of selected tool handlers (code_execution_tools.py,
family_tools.py, selection_tools.py, modification_tools.py).

Python values are modelled by `PyValue`; Python exceptions that can be raised
inside `format_response` (AttributeError from `.lower()` on a non-string,
TypeError from `str.join` over non-strings) by `PyErr`.
-/

/-- A JSON-compatible Python value: None, bool, int, float, str, list, dict.
The modelled code never does float arithmetic (floats only pass through
payloads), so floats are represented exactly as rationals.  Dicts are
insertion-ordered key/value lists; genuine Python dicts have unique keys. -/
inductive PyValue where
  | null
  | bool (b : Bool)
  | num (n : Int)
  | float (q : Rat)
  | str (s : String)
  | list (xs : List PyValue)
  | dict (kvs : List (String × PyValue))

/-- An exception raised inside `format_response`. -/
inductive PyErr where
  | attributeError
  | typeError

/-- The character `'` (used when rendering Python `repr` of strings). -/
def singleQuoteChar : Char := Char.ofNat 39

/-- The character `"` (used when rendering Python `repr`/JSON strings). -/
def doubleQuoteChar : Char := Char.ofNat 34

/-- Lower-case hexadecimal digit. -/
def hexDigitChar (n : Nat) : Char :=
  if n < 10 then Char.ofNat (48 + n) else Char.ofNat (87 + n)

/-- Two lower-case hex digits of `n` (mod 256). -/
def hex2 (n : Nat) : String :=
  String.mk [hexDigitChar (n / 16 % 16), hexDigitChar (n % 16)]

/-- Four lower-case hex digits of `n` (mod 65536). -/
def hex4 (n : Nat) : String :=
  String.mk [hexDigitChar (n / 4096 % 16), hexDigitChar (n / 256 % 16),
             hexDigitChar (n / 16 % 16), hexDigitChar (n % 16)]

/-- `n` spaces. -/
def spacesN (n : Nat) : String := String.mk (List.replicate n ' ')

/-- Join a list of strings with a separator between consecutive elements,
as Python `sep.join(parts)` does on a list of strings. -/
def joinSep (sep : String) : List String → String
  | [] => ""
  | [s] => s
  | s :: rest => s ++ sep ++ joinSep sep rest

/-- Decimal digits of the fractional part `rem/den`, fuelled (Python floats
always have a finite decimal expansion; the fuel is never exhausted for the
values handled by the modelled code). -/
def fracDigits : Nat → Nat → Nat → String
  | 0, _, _ => ""
  | _ + 1, 0, _ => ""
  | fuel + 1, rem, den =>
    let r10 := rem * 10
    String.singleton (Char.ofNat (48 + r10 / den)) ++ fracDigits fuel (r10 % den) den

/-- Rendering of a Python float (CPython `repr`, for decimally representable
values such as the coordinate defaults appearing in the modelled code). -/
def floatRepr (q : Rat) : String :=
  let sign := if q < 0 then "-" else ""
  let n := q.num.natAbs
  let d := q.den
  let ip := n / d
  let rem := n % d
  sign ++ toString ip ++ "." ++ (if rem = 0 then "0" else fracDigits 17 rem d)

/-- One character of CPython `repr` of a string, given the chosen quote. -/
def pyReprEscChar (quote : Char) (c : Char) : String :=
  if c = '\\' then "\\\\"
  else if c = quote then "\\" ++ String.singleton c
  else if c = '\n' then "\\n"
  else if c = '\r' then "\\r"
  else if c = '\t' then "\\t"
  else if c.toNat < 32 || c.toNat = 127 then "\\x" ++ hex2 c.toNat
  else String.singleton c

/-- CPython `repr` of a string: single-quoted, switching to double quotes when
the string contains a single quote but no double quote. -/
def pyReprStr (s : String) : String :=
  let quote :=
    if s.contains singleQuoteChar && !(s.contains doubleQuoteChar)
    then doubleQuoteChar else singleQuoteChar
  String.singleton quote ++ String.join (s.toList.map (pyReprEscChar quote))
    ++ String.singleton quote

mutual

/-- CPython `repr` of a value (as far as the modelled code can observe it). -/
def pyRepr : PyValue → String
  | .null => "None"
  | .bool b => if b then "True" else "False"
  | .num n => toString n
  | .float q => floatRepr q
  | .str s => pyReprStr s
  | .list xs => "[" ++ joinSep ", " (pyReprList xs) ++ "]"
  | .dict kvs => "\x7b" ++ joinSep ", " (pyReprDict kvs) ++ "\x7d"
termination_by structural v => v

/-- `repr` of each element of a list. -/
def pyReprList : List PyValue → List String
  | [] => []
  | x :: xs => pyRepr x :: pyReprList xs
termination_by structural l => l

/-- `repr` of each `key: value` entry of a dict. -/
def pyReprDict : List (String × PyValue) → List String
  | [] => []
  | (k, v) :: kvs => (pyReprStr k ++ ": " ++ pyRepr v) :: pyReprDict kvs
termination_by structural l => l

end

/-- CPython `str` of a value: the identity on strings, `repr` otherwise
(this is also what `"...{}...".format(v)` inserts). -/
def pyStr (v : PyValue) : String :=
  match v with
  | .str s => s
  | v => pyRepr v

/-- Python truthiness of a value. -/
def pyTruthy : PyValue → Bool
  | .null => false
  | .bool b => b
  | .num n => if n = 0 then false else true
  | .float q => if q = 0 then false else true
  | .str s => if s = "" then false else true
  | .list [] => false
  | .list (_ :: _) => true
  | .dict [] => false
  | .dict (_ :: _) => true

/-- Dictionary key lookup (`key in d` / `d[key]`), first matching entry. -/
def pyLookup : List (String × PyValue) → String → Option PyValue
  | [], _ => none
  | (k1, v1) :: rest, k => if k1 = k then some v1 else pyLookup rest k

/-- `d.get(key, default)`. -/
def pyGetD (kvs : List (String × PyValue)) (k : String) (d : PyValue) : PyValue :=
  (pyLookup kvs k).getD d

/-- `s.lower()` on a string (the ASCII fragment, which is exact for the
comparisons against "active"/"healthy" made by the modelled code). -/
def asciiLower (s : String) : String := String.mk (s.toList.map Char.toLower)

/-- `v.lower()`: defined on strings; raises AttributeError on any
non-string. -/
def pyLower : PyValue → Except PyErr String
  | .str s => .ok (asciiLower s)
  | _ => .error .attributeError

/-- Python `sep.join(parts)` on a list of arbitrary values: raises TypeError
as soon as an element is not a string. -/
def pyJoin (sep : String) : List PyValue → Except PyErr String
  | [] => .ok ""
  | [v] =>
    match v with
    | .str s => .ok s
    | _ => .error .typeError
  | v :: rest =>
    match v with
    | .str s => (pyJoin sep rest).map (fun r => s ++ sep ++ r)
    | _ => .error .typeError

/-- One character of a JSON string literal (`ensure_ascii=False`). -/
def jsonEscChar (c : Char) : String :=
  if c = doubleQuoteChar then "\\" ++ String.singleton doubleQuoteChar
  else if c = '\\' then "\\\\"
  else if c = '\n' then "\\n"
  else if c = '\r' then "\\r"
  else if c = '\t' then "\\t"
  else if c = Char.ofNat 8 then "\\b"
  else if c = Char.ofNat 12 then "\\f"
  else if c.toNat < 32 then "\\u" ++ hex4 c.toNat
  else String.singleton c

/-- A JSON string literal (`ensure_ascii=False`: non-ASCII kept intact). -/
def jsonStr (s : String) : String :=
  String.singleton doubleQuoteChar ++ String.join (s.toList.map jsonEscChar)
    ++ String.singleton doubleQuoteChar

mutual

/-- `json.dumps(v, indent=2, ensure_ascii=False, default=str)` at indentation
level `ind` (all values of `PyValue` are natively JSON-serializable, so the
`default=str` escape hatch is never exercised). -/
def jsonDumpsVal (ind : Nat) : PyValue → String
  | .null => "null"
  | .bool b => if b then "true" else "false"
  | .num n => toString n
  | .float q => floatRepr q
  | .str s => jsonStr s
  | .list [] => "[]"
  | .list (x :: xs) =>
      "[\n" ++ joinSep ",\n" (jsonDumpsList (ind + 1) (x :: xs)) ++ "\n"
        ++ spacesN (2 * ind) ++ "]"
  | .dict [] => "\x7b\x7d"
  | .dict (e :: es) =>
      "\x7b\n" ++ joinSep ",\n" (jsonDumpsEntries (ind + 1) (e :: es)) ++ "\n"
        ++ spacesN (2 * ind) ++ "\x7d"
termination_by structural v => v

/-- Indented serializations of the elements of a JSON array. -/
def jsonDumpsList (ind : Nat) : List PyValue → List String
  | [] => []
  | x :: xs => (spacesN (2 * ind) ++ jsonDumpsVal ind x) :: jsonDumpsList ind xs
termination_by structural l => l

/-- Indented serializations of the entries of a JSON object. -/
def jsonDumpsEntries (ind : Nat) : List (String × PyValue) → List String
  | [] => []
  | (k, v) :: es =>
      (spacesN (2 * ind) ++ jsonStr k ++ ": " ++ jsonDumpsVal ind v)
        :: jsonDumpsEntries ind es
termination_by structural l => l

end

/-- `json.dumps(v, indent=2, ensure_ascii=False, default=str)`. -/
def jsonDumps (v : PyValue) : String := jsonDumpsVal 0 v

/-- utils.py lines 26-37: the explicit-error branch of `format_response`.
Note that the `"Unknown error occurred"` default of `response.get` is dead:
this branch only runs when the `"error"` key is present. -/
def errorReport (kvs : List (String × PyValue)) : Except PyErr PyValue :=
  let error_msg := pyGetD kvs "error" (.str "Unknown error occurred")
  let traceback_info := pyGetD kvs "traceback" (.str "")
  let error_parts := [PyValue.str "=== ERROR ===",
                      PyValue.str ("Error: " ++ pyStr error_msg)]
  let error_parts :=
    if pyTruthy traceback_info
    then error_parts ++ [PyValue.str "\n=== TRACEBACK ===", traceback_info]
    else error_parts
  (pyJoin "\n" error_parts).map PyValue.str

/-- utils.py lines 48-56: the human-readable status report. -/
def statusReport (kvs : List (String × PyValue)) : String :=
  let status_parts := ["=== REVIT STATUS ===",
                       "Status: " ++ pyStr (pyGetD kvs "status" (.str "Unknown")),
                       "Health: " ++ pyStr (pyGetD kvs "health" (.str "Unknown"))]
  let status_parts := status_parts ++
    (match pyLookup kvs "api_name" with
     | some v => ["API: " ++ pyStr v]
     | none => [])
  let status_parts := status_parts ++
    (match pyLookup kvs "document_title" with
     | some v => ["Document: " ++ pyStr v]
     | none => [])
  joinSep "\n" status_parts

/-- utils.py lines 26-60: what `format_response` does with the working mapping
after the `data`-envelope unwrap (the spec's rules 3-6): error report, then
`.lower()` of `status`/`health` (which can raise AttributeError), then raw
`output` passthrough, then status report, then indented JSON fallback. -/
def processDict (kvs : List (String × PyValue)) : Except PyErr PyValue :=
  if (pyLookup kvs "error").isSome then
    errorReport kvs
  else
    match pyLower (pyGetD kvs "status" (.str "")) with
    | .error e => .error e
    | .ok status =>
      match pyLower (pyGetD kvs "health" (.str "")) with
      | .error e => .error e
      | .ok health =>
        match pyLookup kvs "output" with
        | some v => .ok v
        | none =>
          if status = "active" && health = "healthy" then
            .ok (.str (statusReport kvs))
          else
            .ok (.str (jsonDumps (.dict kvs)))

/-- utils.py lines 22-23: the `data`-envelope unwrap — replace the mapping by
`response["data"]` when that value is a dict and the mapping has at most two
keys. -/
def unwrapD (kvs : List (String × PyValue)) : List (String × PyValue) :=
  match pyLookup kvs "data" with
  | some (.dict inner) => if kvs.length ≤ 2 then inner else kvs
  | _ => kvs

/-- utils.py `format_response`: non-dicts are stringified; dicts are processed
after the envelope unwrap.  A `.ok` result is the returned value (Python may
return a non-string here, via the raw `output` passthrough); a `.error` result
is an uncaught exception. -/
def format_response : PyValue → Except PyErr PyValue
  | .dict kvs => processDict (unwrapD kvs)
  | v => .ok (.str (pyStr v))

/-- True when the value is a Python dict (`isinstance(response, dict)`). -/
def PyValue.isDict : PyValue → Bool
  | .dict _ => true
  | _ => false

/-- The key is absent, or its value is a string. -/
def strKeyOkB (kvs : List (String × PyValue)) (k : String) : Bool :=
  match pyLookup kvs k with
  | none => true
  | some (.str _) => true
  | some _ => false

/-- The keys `format_response` assumes to be string-valued when present
(per the spec's BackendResponse data model). -/
def stringlyB (kvs : List (String × PyValue)) : Bool :=
  strKeyOkB kvs "status" && strKeyOkB kvs "health"
    && strKeyOkB kvs "output" && strKeyOkB kvs "traceback"

/-- A recoverable transport error: the exception classes caught by
`execute_revit_code` (`ConnectionError, ValueError, RuntimeError`). -/
inductive RecoverableError where
  | connectionError (m : String)
  | valueError (m : String)
  | runtimeError (m : String)

/-- `str(e)` of a recoverable transport error. -/
def RecoverableError.msg : RecoverableError → String
  | .connectionError m => m
  | .valueError m => m
  | .runtimeError m => m

/-- A log entry emitted through the MCP context (`ctx.info` / `ctx.error`). -/
inductive LogEntry where
  | info (m : String)
  | error (m : String)

/-- Observable outcome of one tool-handler invocation: the returned value or
the uncaught exception, plus the log entries emitted through the context.
`result = .error e` means the transport exception escaped the handler;
`result = .ok r` means the handler returned `format_response`'s outcome `r`
(itself a value or an exception raised inside `format_response`). -/
structure HandlerRun where
  result : Except RecoverableError (Except PyErr PyValue)
  logs : List LogEntry

/-- code_execution_tools.py lines 71-75: the payload of `execute_revit_code`. -/
def execute_code_payload (code description : String) (use_transaction : Bool) :
    List (String × PyValue) :=
  [("code", .str code), ("description", .str description),
   ("use_transaction", .bool use_transaction)]

/-- code_execution_tools.py `execute_revit_code` (lines 70-88), parameterized
by the transport capability `post`: builds the payload, logs when a context is
present, posts, and formats; a recoverable transport error is caught, logged
when a context is present, and turned into a plain-text return value. -/
def execute_revit_code (code description : String) (use_transaction ctx : Bool)
    (post : PyValue → Except RecoverableError PyValue) : HandlerRun :=
  let trans_info := if use_transaction then "with transaction" else "without transaction"
  let logs :=
    if ctx then [LogEntry.info ("Executing code (" ++ trans_info ++ "): " ++ description)]
    else []
  match post (.dict (execute_code_payload code description use_transaction)) with
  | .ok response => ⟨.ok (format_response response), logs⟩
  | .error e =>
    let error_msg := "Error during code execution: " ++ e.msg
    ⟨.ok (.ok (.str error_msg)), logs ++ (if ctx then [LogEntry.error error_msg] else [])⟩

/-- `None`-defaulted optional string parameter as it lands in a payload. -/
def optStrToPy : Option String → PyValue
  | none => .null
  | some s => .str s

/-- family_tools.py lines 25-32: the payload of `place_family`.  The scalar
optionals `type_name`/`level_name` are placed in the dict literal as-is (so an
unsupplied one is sent as None); `properties` is replaced by `\x7b\x7d` when
falsy (`properties or \x7b\x7d`). -/
def place_family_payload (family_name : String) (type_name : Option String)
    (x y z rotation : Rat) (level_name : Option String)
    (properties : Option (List (String × PyValue))) : List (String × PyValue) :=
  [("family_name", .str family_name),
   ("type_name", optStrToPy type_name),
   ("location", .dict [("x", .float x), ("y", .float y), ("z", .float z)]),
   ("rotation", .float rotation),
   ("level_name", optStrToPy level_name),
   ("properties", .dict (match properties with | some p => p | none => []))]

/-- family_tools.py `place_family` (lines 13-34): no try/except — a transport
exception escapes the handler; no context logging in this handler. -/
def place_family (family_name : String) (type_name : Option String)
    (x y z rotation : Rat) (level_name : Option String)
    (properties : Option (List (String × PyValue))) (ctx : Bool)
    (post : PyValue → Except RecoverableError PyValue) : HandlerRun :=
  match post (.dict (place_family_payload family_name type_name x y z rotation
      level_name properties)) with
  | .ok response => ⟨.ok (format_response response), []⟩
  | .error e => ⟨.error e, []⟩

/-- selection_tools.py lines 130-141: the payload of `quick_count`.  The
optional filters are added only when truthy (non-empty string / non-empty
list), in source order after the two mandatory keys. -/
def quick_count_payload (category : String) (type_contains : Option String)
    (type_excludes : Option (List String)) (level : Option String)
    (in_view : Bool) : List (String × PyValue) :=
  [("category", .str category), ("in_view", .bool in_view)]
    ++ (match type_contains with
        | some s => if s = "" then [] else [("type_contains", PyValue.str s)]
        | none => [])
    ++ (match type_excludes with
        | some l => if l = [] then [] else [("type_excludes", PyValue.list (l.map PyValue.str))]
        | none => [])
    ++ (match level with
        | some s => if s = "" then [] else [("level", PyValue.str s)]
        | none => [])

/-- selection_tools.py `quick_count` (lines 97-143): logs when a context is
present, posts, formats; no try/except — a transport exception escapes. -/
def quick_count (category : String) (type_contains : Option String)
    (type_excludes : Option (List String)) (level : Option String)
    (in_view ctx : Bool)
    (post : PyValue → Except RecoverableError PyValue) : HandlerRun :=
  let logs := if ctx then [LogEntry.info ("Quick count for category: " ++ category)] else []
  match post (.dict (quick_count_payload category type_contains type_excludes
      level in_view)) with
  | .ok response => ⟨.ok (format_response response), logs⟩
  | .error e => ⟨.error e, logs⟩

/-- modification_tools.py lines 116-124: the payload of `place_view_on_sheet`.
`x`/`y` are always present (their defaults are 1.0 and 0.75); the id/name
selectors are added only when truthy (non-zero int / non-empty string). -/
def place_view_on_sheet_payload (sheet_id view_id : Int)
    (sheet_number view_name : String) (x y : Rat) : List (String × PyValue) :=
  [("x", .float x), ("y", .float y)]
    ++ (if sheet_id = 0 then [] else [("sheet_id", PyValue.num sheet_id)])
    ++ (if view_id = 0 then [] else [("view_id", PyValue.num view_id)])
    ++ (if sheet_number = "" then [] else [("sheet_number", PyValue.str sheet_number)])
    ++ (if view_name = "" then [] else [("view_name", PyValue.str view_name)])

/-- A successful key lookup means the key occurs among the dict's keys. -/
theorem pyLookup_mem_keys {kvs : List (String × PyValue)} {k : String} {v : PyValue}
    (h : pyLookup kvs k = some v) : k ∈ kvs.map Prod.fst := by
  induction kvs with
  | nil => simp [pyLookup] at h
  | cons a rest ih =>
    obtain ⟨k1, v1⟩ := a
    rw [pyLookup] at h
    by_cases hk : k1 = k
    · subst hk; simp
    · simp only [if_neg hk] at h
      simp [ih h]

/-- A mapping in which `status`, `health` and `data` all resolve has more than
two entries, so the `data`-envelope unwrap cannot apply to it. -/
theorem three_keys_not_short {kvs : List (String × PyValue)}
    (h1 : (pyLookup kvs "status").isSome) (h2 : (pyLookup kvs "health").isSome)
    (h3 : (pyLookup kvs "data").isSome) : ¬ kvs.length ≤ 2 := by
  intro hlen
  obtain ⟨v1, e1⟩ := Option.isSome_iff_exists.mp h1
  obtain ⟨v2, e2⟩ := Option.isSome_iff_exists.mp h2
  obtain ⟨v3, e3⟩ := Option.isSome_iff_exists.mp h3
  have m1 := pyLookup_mem_keys e1
  have m2 := pyLookup_mem_keys e2
  have m3 := pyLookup_mem_keys e3
  have hsub : ({"status", "health", "data"} : Finset String) ⊆ (kvs.map Prod.fst).toFinset := by
    intro x hx
    simp only [Finset.mem_insert, Finset.mem_singleton] at hx
    rcases hx with h | h | h <;> subst h <;> simp [List.mem_toFinset, m1, m2, m3]
  have hcard : ({"status", "health", "data"} : Finset String).card = 3 := by decide
  have hle := Finset.card_le_card hsub
  have htf := List.toFinset_card_le (kvs.map Prod.fst)
  rw [hcard] at hle
  simp only [List.length_map] at htf
  omega

/-- The error branch (utils.py 26-37), evaluated: the `Error:` line carries the
string form of the stored error value, and the traceback section appears
exactly when the (string-or-absent) `traceback` entry is a non-empty string. -/
theorem errorReport_spec (kvs : List (String × PyValue)) (ev : PyValue)
    (herr : pyLookup kvs "error" = some ev)
    (htb : strKeyOkB kvs "traceback" = true) :
    errorReport kvs = .ok (.str ("=== ERROR ===\nError: " ++ pyStr ev ++
      (match pyLookup kvs "traceback" with
       | some (.str t) => if t = "" then "" else "\n\n=== TRACEBACK ===\n" ++ t
       | _ => ""))) := by
  unfold errorReport pyGetD
  rw [herr]
  unfold strKeyOkB at htb
  cases htbl : pyLookup kvs "traceback" with
  | none =>
    simp only [htbl, Option.getD_some, Option.getD_none]
    simp [pyTruthy, pyJoin, Except.map, ← String.append_assoc]
  | some tv =>
    rw [htbl] at htb
    cases tv with
    | null => simp at htb
    | bool b => simp at htb
    | num n => simp at htb
    | float q => simp at htb
    | list xs => simp at htb
    | dict d => simp at htb
    | str t =>
      simp only [htbl, Option.getD_some]
      by_cases ht : t = ""
      · subst ht; simp [pyTruthy, pyJoin, Except.map, ← String.append_assoc]
      · simp [pyTruthy, ht, pyJoin, Except.map, ← String.append_assoc]
        rw [String.append_assoc ("=== ERROR ===\nError: " ++ pyStr ev) "\n" "\n=== TRACEBACK ===\n"]
        rfl

/-- A `status`/`health`-style field that is absent or a string makes the
`.get(...).lower()` of utils.py line 40/41 succeed. -/
theorem pyLower_getD_ok {kvs : List (String × PyValue)} {k : String}
    (h : strKeyOkB kvs k = true) :
    ∃ s, pyLower (pyGetD kvs k (.str "")) = .ok s := by
  unfold strKeyOkB at h
  unfold pyGetD
  cases hl : pyLookup kvs k with
  | none => exact ⟨"", rfl⟩
  | some v =>
    rw [hl] at h
    cases v with
    | str s => exact ⟨asciiLower s, rfl⟩
    | null => simp at h
    | bool b => simp at h
    | num n => simp at h
    | float q => simp at h
    | list xs => simp at h
    | dict d => simp at h

/-- Regrouping that folds the fixed status-report prefix into one literal. -/
theorem mergeStatusHead (x : String) :
    ("=== REVIT STATUS ===\n" : String) ++ ("Status: " ++ x) =
      "=== REVIT STATUS ===\nStatus: " ++ x := by
  rw [← String.append_assoc]
  rfl

/-- Regrouping that folds the newline into the `Health:` label. -/
theorem mergeHealth (x : String) :
    ("\n" : String) ++ ("Health: " ++ x) = "\nHealth: " ++ x := by
  rw [← String.append_assoc]
  rfl

/-- Regrouping that folds the newline into the `API:` label. -/
theorem mergeApi (x : String) :
    ("\n" : String) ++ ("API: " ++ x) = "\nAPI: " ++ x := by
  rw [← String.append_assoc]
  rfl

/-- Regrouping that folds the newline into the `Document:` label. -/
theorem mergeDocument (x : String) :
    ("\n" : String) ++ ("Document: " ++ x) = "\nDocument: " ++ x := by
  rw [← String.append_assoc]
  rfl

/-- C1: for every backend response that is a mapping and, after the rule-2
envelope unwrap, contains an `error` key holding a non-empty string, the
result is the fixed multi-line report: the error header line, then
`Error: «message»`, and — iff the working mapping also has a `traceback` key
holding a non-empty string (per the data model, `traceback` is a string when
present) — the traceback header followed by the traceback text verbatim. -/
theorem format_response_error_report (kvs : List (String × PyValue)) (msg : String)
    (herr : pyLookup (unwrapD kvs) "error" = some (.str msg))
    (_hmsg : msg ≠ "")
    (htb : strKeyOkB (unwrapD kvs) "traceback" = true) :
    format_response (.dict kvs) =
      .ok (.str ("=== ERROR ===\nError: " ++ msg ++
        (match pyLookup (unwrapD kvs) "traceback" with
         | some (.str t) => if t = "" then "" else "\n\n=== TRACEBACK ===\n" ++ t
         | _ => ""))) := by
  have h := errorReport_spec (unwrapD kvs) (.str msg) herr htb
  show processDict (unwrapD kvs) = _
  unfold processDict
  rw [herr]
  simpa using h

/-- C1 witness: the spec's concrete scenario `«error: Element not found»`. -/
theorem format_response_error_report_witness :
    format_response (.dict [("error", .str "Element not found")]) =
      .ok (.str "=== ERROR ===\nError: Element not found") := by
  have h := format_response_error_report [("error", .str "Element not found")]
    "Element not found" rfl (by decide) rfl
  simpa using h

/-- C2 counterexample: `«data: «error: boom», output: ok»` contains `output`
and no (top-level) `error`, yet the envelope unwrap replaces the working
mapping by the inner dict and the result is the inner error report, not the
`output` value — so the claim as stated fails. -/
theorem format_response_output_unwrap_cex :
    format_response (.dict [("data", .dict [("error", .str "boom")]), ("output", .str "ok")]) =
      .ok (.str "=== ERROR ===\nError: boom") ∧
    format_response (.dict [("data", .dict [("error", .str "boom")]), ("output", .str "ok")]) ≠
      .ok (.str "ok") := by
  refine ⟨rfl, ?_⟩
  intro h
  have h0 : format_response (.dict [("data", .dict [("error", .str "boom")]), ("output", .str "ok")]) =
      .ok (.str "=== ERROR ===\nError: boom") := rfl
  rw [h0] at h
  simp at h

/-- C2 amended: for every mapping on which the envelope unwrap is a no-op,
that contains `output` and no `error`, and whose `status`/`health` fields are
strings when present, `format_response` returns the `output` value exactly —
whitespace and non-ASCII preserved (the identity on the `output` field). -/
theorem format_response_output_identity (kvs : List (String × PyValue)) (v : PyValue)
    (hnw : unwrapD kvs = kvs)
    (herr : pyLookup kvs "error" = none)
    (hout : pyLookup kvs "output" = some v)
    (hs : strKeyOkB kvs "status" = true)
    (hh : strKeyOkB kvs "health" = true) :
    format_response (.dict kvs) = .ok v := by
  obtain ⟨s1, e1⟩ := pyLower_getD_ok hs
  obtain ⟨s2, e2⟩ := pyLower_getD_ok hh
  show processDict (unwrapD kvs) = _
  rw [hnw]
  unfold processDict
  rw [herr, e1, e2, hout]
  simp

/-- C2 witness: an `output` value with internal whitespace and non-ASCII text
is returned byte-for-byte. -/
theorem format_response_output_identity_witness :
    format_response (.dict [("output", .str "hé llo\n x")]) = .ok (.str "hé llo\n x") :=
  format_response_output_identity [("output", .str "hé llo\n x")] (.str "hé llo\n x")
    rfl rfl rfl rfl rfl

/-- C3: for every mapping whose `data` key holds a mapping and that has at
most one other top-level key (`kvs.length ≤ 2` with `data` present), the
result equals applying rules 3-6 (`processDict`: error, output, status,
fallback — which performs no second unwrap) directly to the inner mapping. -/
theorem format_response_envelope_transparency (kvs inner : List (String × PyValue))
    (hd : pyLookup kvs "data" = some (.dict inner))
    (hlen : kvs.length ≤ 2) :
    format_response (.dict kvs) = processDict inner := by
  show processDict (unwrapD kvs) = _
  unfold unwrapD
  rw [hd]
  simp [hlen]

/-- C3 witness: the spec's concrete scenario — a `data` envelope with one
`request_id` sibling is normalized as its inner mapping. -/
theorem format_response_envelope_transparency_witness :
    format_response (.dict [("data", .dict [("count", .num 5)]), ("request_id", .str "abc")]) =
      processDict [("count", .num 5)] :=
  format_response_envelope_transparency _ _ rfl (by decide)

/-- C4 counterexample: `«data: «», error: boom»` contains an `error` key with
a sibling `data` mapping, yet the envelope unwrap discards the error and the
result is the fallback serialization of the inner empty dict, which does not
start with the error header — so the claim as stated fails. -/
theorem format_response_error_precedence_cex :
    format_response (.dict [("data", .dict []), ("error", .str "boom")]) = .ok (.str "\x7b\x7d") ∧
    ("\x7b\x7d" : String).startsWith "=== ERROR ===" = false := by
  exact ⟨rfl, by decide⟩

/-- C4 amended: for every mapping containing an `error` key to which the
envelope unwrap does not apply (and whose `traceback`, per the data model, is
a string when present), the output is the error report — the fixed header,
then `Error:` with the string form of the error value, then, for a non-empty
traceback, its text verbatim after its own header — regardless of any other
keys present (`output`, `status`, rich domain data). -/
theorem format_response_error_precedence (kvs : List (String × PyValue)) (ev : PyValue)
    (hnw : unwrapD kvs = kvs)
    (herr : pyLookup kvs "error" = some ev)
    (htb : strKeyOkB kvs "traceback" = true) :
    format_response (.dict kvs) =
      .ok (.str ("=== ERROR ===\nError: " ++ pyStr ev ++
        (match pyLookup kvs "traceback" with
         | some (.str t) => if t = "" then "" else "\n\n=== TRACEBACK ===\n" ++ t
         | _ => ""))) := by
  show processDict (unwrapD kvs) = _
  rw [hnw]
  unfold processDict
  rw [herr]
  simpa using errorReport_spec kvs ev herr htb

/-- C4 witness: `error` wins over a sibling `output` and `status`, and the
traceback text appears verbatim after its header. -/
theorem format_response_error_precedence_witness :
    format_response (.dict [("error", .str "E1"), ("output", .str "O"),
        ("status", .str "Active"), ("traceback", .str "TB")]) =
      .ok (.str "=== ERROR ===\nError: E1\n\n=== TRACEBACK ===\nTB") := by
  have h := format_response_error_precedence
    [("error", .str "E1"), ("output", .str "O"), ("status", .str "Active"), ("traceback", .str "TB")]
    (.str "E1") rfl rfl rfl
  simpa using h

/-- C5: for every mapping with no `error` and no `output` key whose `status`
lowers to `active` and whose `health` lowers to `healthy`, the result is
exactly the header line, the status line, the health line, then an API line
iff `api_name` is present, then a document line iff `document_title` is
present, in that fixed order — exact string equality, so no other field of
the mapping appears in the output. -/
theorem format_response_status_report (kvs : List (String × PyValue)) (s t : String)
    (herr : pyLookup kvs "error" = none)
    (hout : pyLookup kvs "output" = none)
    (hs : pyLookup kvs "status" = some (.str s))
    (hsl : asciiLower s = "active")
    (hh : pyLookup kvs "health" = some (.str t))
    (hhl : asciiLower t = "healthy") :
    format_response (.dict kvs) =
      .ok (.str ("=== REVIT STATUS ===\nStatus: " ++ s ++ "\nHealth: " ++ t ++
        (match pyLookup kvs "api_name" with
         | some a => "\nAPI: " ++ pyStr a
         | none => "") ++
        (match pyLookup kvs "document_title" with
         | some d => "\nDocument: " ++ pyStr d
         | none => ""))) := by
  have hnw : unwrapD kvs = kvs := by
    unfold unwrapD
    cases hd : pyLookup kvs "data" with
    | none => rfl
    | some dv =>
      cases dv with
      | dict inner =>
        have hlong := three_keys_not_short (by rw [hs]; rfl) (by rw [hh]; rfl)
          (by rw [hd]; rfl)
        simp [hlong]
      | null => rfl
      | bool b => rfl
      | num n => rfl
      | float q => rfl
      | str s => rfl
      | list xs => rfl
  have he1 : pyLower (pyGetD kvs "status" (.str "")) = .ok "active" := by
    unfold pyGetD
    rw [hs]
    simpa [pyLower] using hsl
  have he2 : pyLower (pyGetD kvs "health" (.str "")) = .ok "healthy" := by
    unfold pyGetD
    rw [hh]
    simpa [pyLower] using hhl
  show processDict (unwrapD kvs) = _
  rw [hnw]
  unfold processDict
  rw [herr, he1, he2, hout]
  have hrep : statusReport kvs =
      "=== REVIT STATUS ===\nStatus: " ++ s ++ "\nHealth: " ++ t ++
        (match pyLookup kvs "api_name" with
         | some a => "\nAPI: " ++ pyStr a
         | none => "") ++
        (match pyLookup kvs "document_title" with
         | some d => "\nDocument: " ++ pyStr d
         | none => "") := by
    unfold statusReport pyGetD
    rw [hs, hh]
    cases ha : pyLookup kvs "api_name" with
    | none =>
      cases hd : pyLookup kvs "document_title" with
      | none =>
        simp [joinSep, pyStr, String.append_assoc, mergeStatusHead, mergeHealth]
      | some d =>
        simp [joinSep, pyStr, String.append_assoc, mergeStatusHead, mergeHealth, mergeDocument]
    | some a =>
      cases hd : pyLookup kvs "document_title" with
      | none =>
        simp [joinSep, pyStr, String.append_assoc, mergeStatusHead, mergeHealth, mergeApi]
      | some d =>
        simp [joinSep, pyStr, String.append_assoc, mergeStatusHead, mergeHealth, mergeApi, mergeDocument]
  simp [hrep]

/-- C5 witness: the spec's concrete scenario with `api_name` present and
`document_title` absent. -/
theorem format_response_status_report_witness :
    format_response (.dict [("status", .str "Active"), ("health", .str "Healthy"),
        ("api_name", .str "RevitAPI")]) =
      .ok (.str "=== REVIT STATUS ===\nStatus: Active\nHealth: Healthy\nAPI: RevitAPI") := by
  have h := format_response_status_report
    [("status", .str "Active"), ("health", .str "Healthy"), ("api_name", .str "RevitAPI")]
    "Active" "Healthy" rfl rfl rfl rfl rfl rfl
  simpa using h

/-- C6: the code evaluated at the failing input `«error: »` (empty error
string).  The error branch runs with the key present, so the
`"Unknown error occurred"` default of `response.get` is dead and the message
line stays empty — the code diverges from the documented default. -/
theorem format_response_empty_error_eval :
    format_response (.dict [("error", .str "")]) = .ok (.str "=== ERROR ===\nError: ") ∧
    ("=== ERROR ===\nError: " : String) ≠ "=== ERROR ===\nError: Unknown error occurred" :=
  ⟨rfl, by decide⟩

/-- C7: for every response that is not a mapping, `format_response` returns
`str(response)`; in particular every plain-string response is returned
unchanged (identity law). -/
theorem format_response_non_mapping_id :
    (∀ v : PyValue, v.isDict = false → format_response v = .ok (.str (pyStr v))) ∧
    (∀ s : String, format_response (.str s) = .ok (.str s)) := by
  constructor
  · intro v hv
    cases v with
    | dict kvs => simp [PyValue.isDict] at hv
    | null => rfl
    | bool b => rfl
    | num n => rfl
    | float q => rfl
    | str s => rfl
    | list xs => rfl
  · intro s
    rfl

/-- C7 witness: the spec's transport-failure text is returned unchanged. -/
theorem format_response_non_mapping_id_witness :
    format_response (.str "Connection refused") = .ok (.str "Connection refused") := by
  have h := format_response_non_mapping_id.1 (.str "Connection refused") rfl
  simpa [pyStr] using h

/-- C8 counterexample: a non-string `status` makes `format_response` raise
AttributeError (`.lower()` on an int), and a non-string `output` is returned
raw rather than as a string — both against the claim that the function never
raises and always returns a string. -/
theorem format_response_nonstring_cex :
    format_response (.dict [("status", .num 1)]) = .error .attributeError ∧
    format_response (.dict [("output", .num 5)]) = .ok (.num 5) :=
  ⟨rfl, rfl⟩

/-- C8 amended: `format_response` terminates on every input and returns
exactly one string for every plain-string response and for every mapping
whose working (post-unwrap) `status`, `health`, `output` and `traceback`
fields are strings when present. -/
theorem format_response_total_string (r : PyValue)
    (h : ∀ kvs, r = .dict kvs → stringlyB (unwrapD kvs) = true) :
    ∃ out, format_response r = .ok (.str out) := by
  cases r with
  | dict kvs =>
    have hkv := h kvs rfl
    unfold stringlyB at hkv
    simp only [Bool.and_eq_true] at hkv
    obtain ⟨⟨⟨hst, hhe⟩, hou⟩, htb⟩ := hkv
    show ∃ out, processDict (unwrapD kvs) = .ok (.str out)
    cases he : pyLookup (unwrapD kvs) "error" with
    | some ev =>
      refine ⟨"=== ERROR ===\nError: " ++ pyStr ev ++
        (match pyLookup (unwrapD kvs) "traceback" with
         | some (.str t) => if t = "" then "" else "\n\n=== TRACEBACK ===\n" ++ t
         | _ => ""), ?_⟩
      unfold processDict
      rw [he]
      simpa using errorReport_spec (unwrapD kvs) ev he htb
    | none =>
      obtain ⟨s1, e1⟩ := pyLower_getD_ok hst
      obtain ⟨s2, e2⟩ := pyLower_getD_ok hhe
      unfold processDict
      rw [he, e1, e2]
      cases ho : pyLookup (unwrapD kvs) "output" with
      | some ov =>
        unfold strKeyOkB at hou
        rw [ho] at hou
        cases ov with
        | str os => exact ⟨os, by simp⟩
        | null => simp at hou
        | bool b => simp at hou
        | num n => simp at hou
        | float q => simp at hou
        | list xs => simp at hou
        | dict d => simp at hou
      | none =>
        by_cases hc : s1 = "active" ∧ s2 = "healthy"
        · exact ⟨statusReport (unwrapD kvs), by simp [hc.1, hc.2]⟩
        · refine ⟨jsonDumps (.dict (unwrapD kvs)), ?_⟩
          simp only [Option.isSome_none, Bool.false_eq_true, if_false]
          have hcb : ¬ (s1 = "active" && s2 = "healthy") = true := by
            simp only [Bool.and_eq_true, decide_eq_true_eq]
            exact hc
          simp [hcb]
  | null => exact ⟨"None", rfl⟩
  | bool b => cases b <;> exact ⟨_, rfl⟩
  | num n => exact ⟨_, rfl⟩
  | float q => exact ⟨_, rfl⟩
  | str s => exact ⟨s, rfl⟩
  | list xs => exact ⟨_, rfl⟩

/-- C8 witness: a plain domain mapping falls to the JSON fallback and yields
a string. -/
theorem format_response_total_string_witness :
    ∃ out, format_response (.dict [("count", .num 5)]) = .ok (.str out) :=
  format_response_total_string (.dict [("count", .num 5)])
    (by intro kvs hkv; cases hkv; rfl)

/-- C9 counterexample: the `place_family` handler has no try/except, so a
connection failure raised by the transport call escapes the handler instead
of being caught, logged and rendered as text — the claim as stated fails for
this registered handler. -/
theorem place_family_error_propagates_cex :
    (place_family "Desk" none 0 0 0 0 none none true
        (fun _ => .error (.connectionError "Connection refused"))).result =
      .error (.connectionError "Connection refused") ∧
    (place_family "Desk" none 0 0 0 0 none none true
        (fun _ => .error (.connectionError "Connection refused"))).logs = [] :=
  ⟨rfl, rfl⟩

/-- C9 amended: only the `execute_revit_code` handler catches recoverable
transport errors — it returns the plain-text description
`Error during code execution: «str(e)»` and emits an error log entry exactly
when a context is present — while handlers such as `place_family` and
`quick_count` let the transport exception propagate out uncaught. -/
theorem handler_error_policy :
    (∀ (code desc : String) (ut ctx : Bool) (e : RecoverableError)
        (post : PyValue → Except RecoverableError PyValue),
      post (.dict (execute_code_payload code desc ut)) = .error e →
      execute_revit_code code desc ut ctx post =
        ⟨.ok (.ok (.str ("Error during code execution: " ++ e.msg))),
         (if ctx then [LogEntry.info ("Executing code ("
             ++ (if ut then "with transaction" else "without transaction") ++ "): " ++ desc)]
          else [])
           ++ (if ctx then [LogEntry.error ("Error during code execution: " ++ e.msg)] else [])⟩) ∧
    (∀ (fn : String) (tn : Option String) (x y z rot : Rat) (ln : Option String)
        (props : Option (List (String × PyValue))) (ctx : Bool) (e : RecoverableError)
        (post : PyValue → Except RecoverableError PyValue),
      post (.dict (place_family_payload fn tn x y z rot ln props)) = .error e →
      (place_family fn tn x y z rot ln props ctx post).result = .error e) ∧
    (∀ (cat : String) (tc : Option String) (te : Option (List String)) (lv : Option String)
        (iv ctx : Bool) (e : RecoverableError)
        (post : PyValue → Except RecoverableError PyValue),
      post (.dict (quick_count_payload cat tc te lv iv)) = .error e →
      (quick_count cat tc te lv iv ctx post).result = .error e) := by
  refine ⟨?_, ?_, ?_⟩
  · intro code desc ut ctx e post hpost
    unfold execute_revit_code
    rw [hpost]
  · intro fn tn x y z rot ln props ctx e post hpost
    unfold place_family
    rw [hpost]
  · intro cat tc te lv iv ctx e post hpost
    unfold quick_count
    rw [hpost]

/-- C9 witness: a connection failure during `execute_revit_code` with a
context present yields the plain-text error return plus info and error log
entries. -/
theorem handler_error_policy_witness :
    execute_revit_code "print(1)" "demo" true true
        (fun _ => .error (.connectionError "boom")) =
      ⟨.ok (.ok (.str "Error during code execution: boom")),
       [LogEntry.info "Executing code (with transaction): demo",
        LogEntry.error "Error during code execution: boom"]⟩ := by
  have h := handler_error_policy.1 "print(1)" "demo" true true (.connectionError "boom")
    (fun _ => .error (.connectionError "boom")) rfl
  simpa using h

/-- C10 counterexample: in `place_family`, leaving the optional scalars
`type_name` and `level_name` unsupplied puts them into the payload as null
(None) rather than omitting the keys — the claim as stated fails. -/
theorem place_family_null_optional_cex :
    pyLookup (place_family_payload "Desk" none 0 0 0 0 none none) "type_name" =
      some .null ∧
    pyLookup (place_family_payload "Desk" none 0 0 0 0 none none) "level_name" =
      some .null :=
  ⟨rfl, rfl⟩

/-- C10 amended: `quick_count` omits its unsupplied optional parameters from
the payload (including the list parameter `type_excludes`, which is omitted
rather than sent as an empty list), and `place_view_on_sheet` omits its
falsy-defaulted selectors while always sending `x`/`y` with their declared
defaults; but `place_family` sends unsupplied `type_name`/`level_name` as
null, and only its dict parameter `properties` defaults to an explicit empty
container. -/
theorem payload_optional_param_policy :
    (∀ (cat : String) (iv : Bool),
      pyLookup (quick_count_payload cat none none none iv) "type_contains" = none ∧
      pyLookup (quick_count_payload cat none none none iv) "type_excludes" = none ∧
      pyLookup (quick_count_payload cat none none none iv) "level" = none) ∧
    (pyLookup (place_view_on_sheet_payload 0 0 "" "" 1 (3 / 4)) "sheet_id" = none ∧
     pyLookup (place_view_on_sheet_payload 0 0 "" "" 1 (3 / 4)) "view_id" = none ∧
     pyLookup (place_view_on_sheet_payload 0 0 "" "" 1 (3 / 4)) "sheet_number" = none ∧
     pyLookup (place_view_on_sheet_payload 0 0 "" "" 1 (3 / 4)) "view_name" = none ∧
     pyLookup (place_view_on_sheet_payload 0 0 "" "" 1 (3 / 4)) "x" = some (.float 1) ∧
     pyLookup (place_view_on_sheet_payload 0 0 "" "" 1 (3 / 4)) "y" = some (.float (3 / 4))) ∧
    (∀ fn : String,
      pyLookup (place_family_payload fn none 0 0 0 0 none none) "type_name" = some .null ∧
      pyLookup (place_family_payload fn none 0 0 0 0 none none) "level_name" = some .null ∧
      pyLookup (place_family_payload fn none 0 0 0 0 none none) "properties" =
        some (.dict [])) := by
  refine ⟨?_, ?_, ?_⟩
  · intro cat iv
    exact ⟨rfl, rfl, rfl⟩
  · exact ⟨rfl, rfl, rfl, rfl, rfl, rfl⟩
  · intro fn
    exact ⟨rfl, rfl, rfl⟩
